import Mathlib

/-!
Shallow embedding of `src/components/warehouse/ProductHistory.tsx`.

The component shows the movement history of one inventory product, fed by a
Firestore `onSnapshot` live query, with swipe-to-reveal delete and a
password-gated batched compensating write (`handleDelete`).

Modelling choices:
* JS numbers on the record fields are modelled as `Int` (no arithmetic beyond
  copying and comparison occurs in the fragment).
* A Firestore timestamp is a record with a `seconds` field; a document whose
  `date` field is missing is `Option.none`.  `a.date?.seconds || 0` becomes
  `dateKey` (a missing date — and a zero `seconds` — both yield `0`, exactly
  as the JS expression does).
* `Array.prototype.sort` with the comparator `(a, b) => dateB - dateA` is
  modelled as `List.insertionSort` over the relation induced by that
  comparator (`dateGE a b ↔ dateKey b ≤ dateKey a`): the claims constrain the
  multiset and the ordering of the result, which any correct sort fixes.
* The Firestore `writeBatch` (`update` + `delete` + `commit`) is one atomic
  function `commitBatch` from store to store; a rejected commit is modelled by
  the boolean `commitSucceeds` and leaves the store untouched.
* React state setters become explicit state passing on `UIState`; the
  notification sink becomes the list of notifications an operation emits.
* Exceptions during snapshot normalization are modelled with `Except`: each
  incoming document either normalizes (`Except.ok`) or throws
  (`Except.error`), and the `try/catch` of the `onSnapshot` data callback is
  the `match` in `onDataUpdate`.
-/

/-- Firestore timestamp as used by the component: only `.seconds` is read. -/
structure Timestamp where
  seconds : Int
  deriving DecidableEq

/-- The `Movement` interface of `ProductHistory.tsx` (lines 12–26).
`type` is the string `"in"` or `"out"`, as in the source. -/
structure Movement where
  id : String
  type : String
  quantity : Int
  price : Int
  totalPrice : Int
  date : Option Timestamp
  description : String
  warehouse : String
  previousQuantity : Int
  newQuantity : Int
  previousAveragePrice : Int
  newAveragePrice : Int
  supplier : Option String
  deriving DecidableEq

/-- Modelled from the spec: the `Product` type comes from
`../../types/warehouse`, which is not part of this fragment; spec §6 gives
`Product { id, name, unit, quantity, averagePurchasePrice }`. -/
structure Product where
  id : String
  name : String
  unit : String
  quantity : Int
  averagePurchasePrice : Int
  deriving DecidableEq

/-- The slice of the document store the component touches: the product
document it updates and the `productMovements` documents matching the
component's `productId` query. -/
structure Store where
  product : Product
  productMovements : List Movement
  deriving DecidableEq

/-- The component's React state (`useState` hooks, lines 39–43). -/
structure UIState where
  movements : List Movement
  loading : Bool
  showPasswordPrompt : Bool
  selectedMovement : Option Movement
  swipedMovementId : Option String
  deriving DecidableEq

/-- Initial values of the `useState` hooks: empty list, `loading = true`,
no prompt, no selection, no revealed row. -/
def initState : UIState :=
  { movements := []
    loading := true
    showPasswordPrompt := false
    selectedMovement := none
    swipedMovementId := none }

/-- Modelled from the spec: `showSuccessNotification` / `showErrorNotification`
live in `../../utils/notifications`, outside the fragment; spec §6 describes
them as a fire-and-forget notification sink. An operation's emissions are
collected in a list. -/
inductive Notification
  | success (msg : String)
  | error (msg : String)
  deriving DecidableEq

/-- `a.date?.seconds || 0` from the sort comparator (lines 87–88): a missing
date reads as `0`, and a present date reads its `seconds` (a zero `seconds`
is falsy in JS and also yields `0`, which coincides). -/
def dateKey (m : Movement) : Int :=
  match m.date with
  | some t => t.seconds
  | none => 0

/-- The ordering induced by the comparator `(a, b) => dateB - dateA`: `a` may
precede `b` exactly when the comparator is `≤ 0`, i.e. descending by
`dateKey`. -/
def dateGE (a b : Movement) : Prop := dateKey b ≤ dateKey a

instance : DecidableRel dateGE :=
  fun a b => inferInstanceAs (Decidable (dateKey b ≤ dateKey a))

instance : IsTotal Movement dateGE := ⟨fun a b => le_total (dateKey b) (dateKey a)⟩

instance : IsTrans Movement dateGE := ⟨fun _ _ _ hab hbc => le_trans hbc hab⟩

/-- `movementsData.sort(...)` (lines 86–90). -/
def sortMovements (ms : List Movement) : List Movement :=
  List.insertionSort dateGE ms

/-- Sequencing of `snapshot.docs.map(...)`: JS `map` propagates the first
thrown exception, so one bad document makes the whole batch throw. -/
def normalizeDocs : List (Except Unit Movement) → Except Unit (List Movement)
  | [] => Except.ok []
  | Except.error e :: _ => Except.error e
  | Except.ok m :: rest =>
    match normalizeDocs rest with
    | Except.ok ms => Except.ok (m :: ms)
    | Except.error e => Except.error e

/-- Whether a document's normalization throws. -/
def isErrDoc : Except Unit Movement → Bool
  | Except.error _ => true
  | Except.ok _ => false

/-- The `onSnapshot` data callback (lines 77–96): normalize the documents and
publish the sorted snapshot; if anything throws, the `catch` publishes `[]`.
`setLoading(false)` runs after the `try/catch` on both paths. The function is
total: no exception reaches the caller. -/
def onDataUpdate (docs : List (Except Unit Movement)) (st : UIState) : UIState :=
  match normalizeDocs docs with
  | Except.ok ms => { st with movements := sortMovements ms, loading := false }
  | Except.error _ => { st with movements := [], loading := false }

/-- The `onSnapshot` error callback (lines 97–101): publish `[]`, stop
loading; the error is logged, not thrown. -/
def onError (st : UIState) : UIState :=
  { st with movements := [], loading := false }

/-- One event delivered by the subscription: either a snapshot of documents
(each of which may fail to normalize) or a stream error. -/
inductive FeedEvent
  | data (docs : List (Except Unit Movement))
  | failure

/-- Dispatch one subscription event to the matching callback. -/
def stepFeed (st : UIState) (e : FeedEvent) : UIState :=
  match e with
  | FeedEvent.data docs => onDataUpdate docs st
  | FeedEvent.failure => onError st

/-- State of the component after the subscription has delivered `evs`, in
order, starting from the initial hook state. -/
def runFeed (evs : List FeedEvent) : UIState :=
  List.foldl stepFeed initState evs

/-- `handleSwipe` (lines 45–51): toggling the currently revealed row hides
it, swiping any other row makes it the sole revealed one. -/
def handleSwipe (movementId : String) (st : UIState) : UIState :=
  if st.swipedMovementId = some movementId then
    { st with swipedMovementId := none }
  else
    { st with swipedMovementId := some movementId }

/-- Whether the row for `movementId` currently shows its delete affordance
(the rendering compares `swipedMovementId === record.id`). -/
def rowRevealed (st : UIState) (movementId : String) : Bool :=
  decide (st.swipedMovementId = some movementId)

/-- `handleDeleteClick` (lines 162–165): select the record and open the
password prompt. -/
def handleDeleteClick (m : Movement) (st : UIState) : UIState :=
  { st with selectedMovement := some m, showPasswordPrompt := true }

/-- The `newQuantity` computation of `handleDelete` (lines 137–139): the
conditional on `selectedMovement.type === 'in'` returns `previousQuantity`
in both branches. -/
def newQuantityFor (m : Movement) : Int :=
  if m.type = "in" then m.previousQuantity else m.previousQuantity

/-- The committed batch of `handleDelete` (lines 134–151): one atomic write
that updates the product's `quantity` and `averagePurchasePrice` and deletes
the movement document with `m.id` from `productMovements`. -/
def commitBatch (m : Movement) (newQuantity : Int) (store : Store) : Store :=
  { product :=
      { store.product with
        quantity := newQuantity
        averagePurchasePrice := m.previousAveragePrice }
    productMovements := store.productMovements.filter (fun x => x.id != m.id) }

/-- `handleDelete` (lines 125–160). The early return (not authenticated or
no selection) closes the prompt and clears the selection, touching nothing
else. Otherwise the batch is committed atomically: `commitSucceeds = true`
applies `commitBatch` and emits the success notification, `commitSucceeds =
false` (rejected commit / network error) leaves the store untouched and emits
the error notification; the `finally` block clears prompt, selection and
revealed row on both paths. -/
def handleDelete (isAuthenticated : Bool) (commitSucceeds : Bool)
    (st : UIState) (store : Store) : UIState × Store × List Notification :=
  match isAuthenticated, st.selectedMovement with
  | true, some m =>
    if commitSucceeds then
      ({ st with showPasswordPrompt := false, selectedMovement := none,
                 swipedMovementId := none },
       commitBatch m (newQuantityFor m) store,
       [Notification.success "Операция успешно удалена"])
    else
      ({ st with showPasswordPrompt := false, selectedMovement := none,
                 swipedMovementId := none },
       store,
       [Notification.error "Ошибка при удалении операции"])
  | _, _ =>
    ({ st with showPasswordPrompt := false, selectedMovement := none }, store, [])

/-- Log of live-query subscriptions handed out by the store client; `active`
holds the handles whose `unsubscribe` has not been called. -/
structure SubscriptionLog where
  nextHandle : Nat
  active : List Nat
  deriving DecidableEq

/-- `onSnapshot(q, ...)` returns an unsubscribe handle; the log records it as
active. -/
def subscribeMovements (log : SubscriptionLog) : Nat × SubscriptionLog :=
  (log.nextHandle,
   { nextHandle := log.nextHandle + 1, active := log.nextHandle :: log.active })

/-- Calling the unsubscribe function for handle `h` removes it from the
active set. -/
def unsubscribeHandle (h : Nat) (log : SubscriptionLog) : SubscriptionLog :=
  { log with active := log.active.filter (fun x => x != h) }

/-- Lifecycle events the React runtime delivers to the effect of lines
71–107: mount, change of the `product.id` dependency, unmount. -/
inductive LifeEvent
  | mount (productId : String)
  | setProduct (productId : String)
  | unmount

/-- The effect's own state: the unsubscribe handle captured by the cleanup
closure it returned (if it has run), plus the subscription log. -/
structure EffectState where
  handle : Option Nat
  log : SubscriptionLog
  deriving DecidableEq

/-- Run the cleanup the effect returned: `() => unsubscribe()` on the handle
captured at subscription time (a no-op when the effect never ran). -/
def runCleanup (es : EffectState) : EffectState :=
  match es.handle with
  | some h => { handle := none, log := unsubscribeHandle h es.log }
  | none => es

/-- Modelled from the spec: the `useEffect` contract (spec §4.1 Lifecycle,
§9) — the runtime runs the effect body after mount, runs the previous
cleanup and then the body again when the `product.id` dependency changes, and
runs the cleanup on unmount. The body itself is the code of lines 71–107:
subscribe and return the unsubscribe closure. -/
def lifeStep (es : EffectState) : LifeEvent → EffectState
  | LifeEvent.mount _ =>
    let es' := runCleanup es
    let hl := subscribeMovements es'.log
    { handle := some hl.1, log := hl.2 }
  | LifeEvent.setProduct _ =>
    let es' := runCleanup es
    let hl := subscribeMovements es'.log
    { handle := some hl.1, log := hl.2 }
  | LifeEvent.unmount => runCleanup es

/-- Before the first render: no effect has run, no subscription exists. -/
def initEffect : EffectState :=
  { handle := none, log := { nextHandle := 0, active := [] } }

/-- Effect state after the runtime delivered the lifecycle events `evs`. -/
def runLife (evs : List LifeEvent) : EffectState :=
  List.foldl lifeStep initEffect evs

/-- Invariant tying the effect to the subscription log: the active handles
are exactly the one the effect's pending cleanup holds. -/
def goodSub (es : EffectState) : Prop := es.log.active = es.handle.toList

/-- The ordering the claim asserts for the published feed: `a` may precede
`b` when `a`'s timestamp is `≥` `b`'s, a missing timestamp being the minimum
possible value (so missing-timestamp records may only sit at the end). -/
def claimLE (a b : Movement) : Bool :=
  match a.date, b.date with
  | none, none => true
  | none, some _ => false
  | some _, none => true
  | some s, some t => decide (t.seconds ≤ s.seconds)

/-- Adjacent non-increasingness of a list under the claimed ordering. -/
def claimSortedDesc : List Movement → Bool
  | [] => true
  | [_] => true
  | a :: b :: rest => claimLE a b && claimSortedDesc (b :: rest)

/-- Concrete product for witnesses (spec §8, property 5). -/
def sampleProduct : Product :=
  { id := "p1", name := "Cement", unit := "kg", quantity := 100,
    averagePurchasePrice := 10 }

/-- Concrete movement for witnesses (spec §8, property 5). -/
def sampleMovement : Movement :=
  { id := "m1", type := "in", quantity := 20, price := 10, totalPrice := 200,
    date := some { seconds := 1700000000 }, description := "delivery",
    warehouse := "main", previousQuantity := 80, newQuantity := 100,
    previousAveragePrice := 9, newAveragePrice := 10, supplier := none }

/-- Component state with `sampleMovement` selected and its row revealed. -/
def sampleState : UIState :=
  { movements := [sampleMovement]
    loading := false
    showPasswordPrompt := true
    selectedMovement := some sampleMovement
    swipedMovementId := some "m1" }

/-- Store holding `sampleProduct` and its one movement. -/
def sampleStore : Store :=
  { product := sampleProduct, productMovements := [sampleMovement] }

/-- A movement dated before the epoch: its timestamp `seconds` is `-1`. -/
def negDateMovement : Movement :=
  { sampleMovement with id := "mNeg", date := some { seconds := -1 } }

/-- A movement whose `date` field is missing from the document. -/
def noDateMovement : Movement :=
  { sampleMovement with id := "mNone", date := none }

/-! ## Theorems -/

/-- Helper: membership is unchanged by the feed's sort. -/
lemma mem_sortMovements {x : Movement} {ms : List Movement} :
    x ∈ sortMovements ms ↔ x ∈ ms :=
  List.mem_insertionSort dateGE

/-- Helper: the committed batch of an authenticated delete, as one equation. -/
lemma handleDelete_auth_commit (st : UIState) (store : Store) (m : Movement)
    (h : st.selectedMovement = some m) :
    handleDelete true true st store =
      ({ st with showPasswordPrompt := false, selectedMovement := none,
                 swipedMovementId := none },
       commitBatch m (newQuantityFor m) store,
       [Notification.success "Операция успешно удалена"]) := by
  unfold handleDelete
  rw [h]
  rfl

/-- Helper: the failed-commit branch of an authenticated delete. -/
lemma handleDelete_auth_fail (st : UIState) (store : Store) (m : Movement)
    (h : st.selectedMovement = some m) :
    handleDelete true false st store =
      ({ st with showPasswordPrompt := false, selectedMovement := none,
                 swipedMovementId := none },
       store,
       [Notification.error "Ошибка при удалении операции"]) := by
  unfold handleDelete
  rw [h]
  rfl

/-- Claim C1 — an authenticated delete with a selected movement `m` commits
the single batch `commitBatch`, which sets the product's `quantity` to
`m.previousQuantity` and its `averagePurchasePrice` to
`m.previousAveragePrice` and removes the movement document with `m.id`;
it emits exactly one success notification, and `m` is absent from the feed
snapshot built from the updated store. The statement quantifies over every
movement, hence over both `type = "in"` and `type = "out"`. -/
theorem delete_commits_restore_and_removes (st : UIState) (store : Store)
    (m : Movement) (h : st.selectedMovement = some m) :
    (handleDelete true true st store).2.1.product.quantity = m.previousQuantity ∧
    (handleDelete true true st store).2.1.product.averagePurchasePrice
      = m.previousAveragePrice ∧
    (handleDelete true true st store).2.2
      = [Notification.success "Операция успешно удалена"] ∧
    (∀ x ∈ (handleDelete true true st store).2.1.productMovements, x.id ≠ m.id) ∧
    (∀ x ∈ sortMovements (handleDelete true true st store).2.1.productMovements,
      x.id ≠ m.id) := by
  rw [handleDelete_auth_commit st store m h]
  refine ⟨by simp [commitBatch, newQuantityFor], rfl, rfl, ?_, ?_⟩
  · intro x hx
    simp only [commitBatch, List.mem_filter, bne_iff_ne, ne_eq] at hx
    exact hx.2
  · intro x hx
    rw [mem_sortMovements] at hx
    simp only [commitBatch, List.mem_filter, bne_iff_ne, ne_eq] at hx
    exact hx.2

/-- Witness for C1 at the spec's §8 concrete scenario. -/
theorem delete_commits_restore_and_removes_witness :
    sampleState.selectedMovement = some sampleMovement ∧
    ((handleDelete true true sampleState sampleStore).2.1.product.quantity
        = sampleMovement.previousQuantity ∧
     (handleDelete true true sampleState sampleStore).2.1.product.averagePurchasePrice
        = sampleMovement.previousAveragePrice ∧
     (handleDelete true true sampleState sampleStore).2.2
        = [Notification.success "Операция успешно удалена"] ∧
     (∀ x ∈ (handleDelete true true sampleState sampleStore).2.1.productMovements,
        x.id ≠ sampleMovement.id) ∧
     (∀ x ∈ sortMovements
          (handleDelete true true sampleState sampleStore).2.1.productMovements,
        x.id ≠ sampleMovement.id)) :=
  ⟨rfl, delete_commits_restore_and_removes sampleState sampleStore sampleMovement rfl⟩

/-- Claim C2 — when the commit of the batch fails, the store (product fields
and movement documents alike) is unchanged, exactly one error notification is
emitted, and prompt, selection and revealed row are all cleared. -/
theorem delete_failure_no_partial_effect (st : UIState) (store : Store)
    (m : Movement) (h : st.selectedMovement = some m) :
    (handleDelete true false st store).2.1 = store ∧
    (handleDelete true false st store).2.2
      = [Notification.error "Ошибка при удалении операции"] ∧
    (handleDelete true false st store).1.showPasswordPrompt = false ∧
    (handleDelete true false st store).1.selectedMovement = none ∧
    (handleDelete true false st store).1.swipedMovementId = none := by
  rw [handleDelete_auth_fail st store m h]
  exact ⟨rfl, rfl, rfl, rfl, rfl⟩

/-- Witness for C2 at the concrete sample scenario. -/
theorem delete_failure_no_partial_effect_witness :
    sampleState.selectedMovement = some sampleMovement ∧
    ((handleDelete true false sampleState sampleStore).2.1 = sampleStore ∧
     (handleDelete true false sampleState sampleStore).2.2
        = [Notification.error "Ошибка при удалении операции"] ∧
     (handleDelete true false sampleState sampleStore).1.showPasswordPrompt = false ∧
     (handleDelete true false sampleState sampleStore).1.selectedMovement = none ∧
     (handleDelete true false sampleState sampleStore).1.swipedMovementId = none) :=
  ⟨rfl, delete_failure_no_partial_effect sampleState sampleStore sampleMovement rfl⟩

/-- Claim C4 — when the authentication gate returns `false`, the handler
performs no store write (the store, and hence any feed snapshot built from
it, is unchanged), emits no notification, and clears the pending selection
(prompt closed, selected movement `none`). -/
theorem delete_unauthenticated_aborts (st : UIState) (store : Store)
    (commitSucceeds : Bool) :
    handleDelete false commitSucceeds st store =
      ({ st with showPasswordPrompt := false, selectedMovement := none },
       store, []) := by
  cases hm : st.selectedMovement <;> unfold handleDelete <;> rw [hm]

/-- Claim C10 — an authenticated call with no selected movement takes the
early-return path: no store write, no notification, prompt closed,
selection left cleared. -/
theorem delete_without_selection_noop (st : UIState) (store : Store)
    (commitSucceeds : Bool) (h : st.selectedMovement = none) :
    handleDelete true commitSucceeds st store =
      ({ st with showPasswordPrompt := false, selectedMovement := none },
       store, []) := by
  unfold handleDelete
  rw [h]

/-- Witness for C10: the initial hook state has no selection. -/
theorem delete_without_selection_noop_witness :
    initState.selectedMovement = none ∧
    handleDelete true true initState sampleStore =
      ({ initState with showPasswordPrompt := false, selectedMovement := none },
       sampleStore, []) :=
  ⟨rfl, delete_without_selection_noop initState sampleStore true rfl⟩

/-- Claim C6 — the conditional `newQuantity` expression, which branches on
`type === 'in'`, is extensionally equal to the branch-free
`previousQuantity`, so the quantity the committed batch writes never depends
on the movement's direction. -/
theorem newQuantity_direction_independent (m : Movement) (store : Store) :
    newQuantityFor m = m.previousQuantity ∧
    (commitBatch m (newQuantityFor m) store).product.quantity
      = m.previousQuantity := by
  constructor
  · simp [newQuantityFor]
  · simp [commitBatch, newQuantityFor]

/-- Helper: a batch in which every document normalizes is normalized to
exactly that list of movements. -/
lemma normalizeDocs_map_ok (ms : List Movement) :
    normalizeDocs (ms.map Except.ok) = Except.ok ms := by
  induction ms with
  | nil => rfl
  | cons m rest ih =>
    show normalizeDocs (Except.ok m :: rest.map Except.ok) = _
    unfold normalizeDocs
    rw [ih]

/-- Claim C3, counterexample — the claim says a missing timestamp sorts as
the minimum possible value (hence last), but the code maps a missing
timestamp to `0`, so a record dated before the epoch (negative `seconds`)
sorts after a record with no timestamp at all: on the snapshot
`[negDateMovement, noDateMovement]` the code publishes the missing-date
record first, violating the claimed ordering. -/
theorem feed_sort_missing_not_minimum :
    (onDataUpdate [Except.ok negDateMovement, Except.ok noDateMovement]
        initState).movements
      = [noDateMovement, negDateMovement] ∧
    claimSortedDesc [noDateMovement, negDateMovement] = false := by
  exact ⟨rfl, rfl⟩

/-- Claim C3 as amended — on each store update the feed replaces the
published list with a permutation of the delivered snapshot that is sorted
(pairwise, hence non-increasing) under `dateGE`, i.e. descending by
effective timestamp with a missing timestamp reading as `0` — which places
missing-timestamp records last among records with positive timestamps but
not below records with negative timestamps. -/
theorem feed_publishes_sorted_snapshot (ms : List Movement) (st : UIState) :
    List.Perm (onDataUpdate (ms.map Except.ok) st).movements ms ∧
    List.Sorted dateGE (onDataUpdate (ms.map Except.ok) st).movements := by
  unfold onDataUpdate
  rw [normalizeDocs_map_ok ms]
  exact ⟨List.perm_insertionSort dateGE ms, List.sorted_insertionSort dateGE ms⟩

/-- Helper: a batch containing a document that throws makes the whole
normalization throw. -/
lemma normalizeDocs_error_of_any (docs : List (Except Unit Movement))
    (h : docs.any isErrDoc = true) : normalizeDocs docs = Except.error () := by
  induction docs with
  | nil => simp at h
  | cons d rest ih =>
    cases d with
    | error e => cases e; rfl
    | ok m =>
      have hrest : rest.any isErrDoc = true := by
        simpa [isErrDoc] using h
      unfold normalizeDocs
      rw [ih hrest]

/-- Claim C5 — if the live query errors (the error callback fires) or any
record throws during normalization of a snapshot, the feed publishes the
empty list and sets loading to `false`; both handlers are total functions,
so no exception reaches the caller. -/
theorem feed_degrades_without_throwing (docs : List (Except Unit Movement))
    (st : UIState) (h : docs.any isErrDoc = true) :
    (onDataUpdate docs st).movements = [] ∧
    (onDataUpdate docs st).loading = false ∧
    (onError st).movements = [] ∧
    (onError st).loading = false := by
  unfold onDataUpdate
  rw [normalizeDocs_error_of_any docs h]
  exact ⟨rfl, rfl, rfl, rfl⟩

/-- Witness for C5: a one-document snapshot whose document throws. -/
theorem feed_degrades_without_throwing_witness :
    ([Except.error ()] : List (Except Unit Movement)).any isErrDoc = true ∧
    ((onDataUpdate [Except.error ()] initState).movements = [] ∧
     (onDataUpdate [Except.error ()] initState).loading = false ∧
     (onError initState).movements = [] ∧
     (onError initState).loading = false) :=
  ⟨rfl, feed_degrades_without_throwing [Except.error ()] initState rfl⟩

/-- Helper: every subscription event, data or error, leaves loading `false`. -/
lemma stepFeed_loading (st : UIState) (e : FeedEvent) :
    (stepFeed st e).loading = false := by
  cases e with
  | data docs =>
    show (onDataUpdate docs st).loading = false
    unfold onDataUpdate
    cases normalizeDocs docs <;> rfl
  | failure => rfl

/-- Helper: after at least one delivered event, loading is `false`. -/
lemma loading_after_first (evs : List FeedEvent) :
    ∀ (st : UIState) (e : FeedEvent),
      (List.foldl stepFeed st (e :: evs)).loading = false := by
  induction evs with
  | nil => intro st e; exact stepFeed_loading st e
  | cons e2 evs ih => intro st e; exact ih (stepFeed st e) e2

/-- Claim C7 — the loading flag starts `true` and is `false` after the first
subscription event, whether that event is a data update or an error, and
remains `false` after every further event. -/
theorem loading_true_until_first_event :
    initState.loading = true ∧
    ∀ (e : FeedEvent) (evs : List FeedEvent),
      (runFeed (e :: evs)).loading = false :=
  ⟨rfl, fun e evs => loading_after_first evs initState e⟩

/-- Claim C9 — the revealed row is a single optional id: swiping the
currently revealed id hides it, swiping any other id makes it the sole
revealed one, and no two distinct ids are revealed at once. -/
theorem swipe_toggles_single_reveal (movementId : String) (st : UIState) :
    (handleSwipe movementId st).swipedMovementId
      = (if st.swipedMovementId = some movementId then none
         else some movementId) ∧
    ∀ a b : String, rowRevealed (handleSwipe movementId st) a = true →
      rowRevealed (handleSwipe movementId st) b = true → a = b := by
  constructor
  · by_cases hc : st.swipedMovementId = some movementId <;>
      simp [handleSwipe, hc]
  · intro a b ha hb
    simp only [rowRevealed, decide_eq_true_eq] at ha hb
    rw [ha] at hb
    exact Option.some.inj hb

/-- Witness for C9: swiping `"m1"` from the initial state reveals it, and
the at-most-one property instantiated at the revealed id. -/
theorem swipe_toggles_single_reveal_witness :
    ((handleSwipe "m1" initState).swipedMovementId
      = (if initState.swipedMovementId = some "m1" then none
         else some "m1")) ∧
    (rowRevealed (handleSwipe "m1" initState) "m1" = true ∧
     rowRevealed (handleSwipe "m1" initState) "m1" = true ∧
     ("m1" : String) = "m1") :=
  ⟨(swipe_toggles_single_reveal "m1" initState).1, by decide, by decide,
   (swipe_toggles_single_reveal "m1" initState).2 "m1" "m1" (by decide) (by decide)⟩

/-- Helper: running the returned cleanup empties the active set and drops
the handle, assuming the log/handle invariant. -/
lemma runCleanup_clears (es : EffectState) (h : goodSub es) :
    (runCleanup es).log.active = [] ∧ (runCleanup es).handle = none := by
  unfold goodSub at h
  unfold runCleanup
  cases hh : es.handle with
  | none =>
    rw [hh] at h
    exact ⟨by simpa using h, hh⟩
  | some hdl =>
    rw [hh] at h
    constructor
    · show (unsubscribeHandle hdl es.log).active = []
      unfold unsubscribeHandle
      simp [h]
    · rfl

/-- Helper: every lifecycle step preserves the log/handle invariant. -/
lemma lifeStep_good (es : EffectState) (h : goodSub es) (e : LifeEvent) :
    goodSub (lifeStep es e) := by
  obtain ⟨ha, _⟩ := runCleanup_clears es h
  cases e with
  | mount pid => simp [lifeStep, goodSub, subscribeMovements, ha]
  | setProduct pid => simp [lifeStep, goodSub, subscribeMovements, ha]
  | unmount =>
    obtain ⟨ha2, hh2⟩ := runCleanup_clears es h
    show goodSub (runCleanup es)
    unfold goodSub
    rw [ha2, hh2]
    rfl

/-- Helper: the invariant holds after any sequence of lifecycle events. -/
lemma runLife_good (evs : List LifeEvent) : goodSub (runLife evs) := by
  suffices h : ∀ es, goodSub es → goodSub (List.foldl lifeStep es evs) from
    h initEffect rfl
  induction evs with
  | nil => intro es h; exact h
  | cons e evs ih => intro es h; exact ih (lifeStep es e) (lifeStep_good es h e)

/-- Helper: appending one lifecycle event is one step. -/
lemma runLife_append_one (evs : List LifeEvent) (e : LifeEvent) :
    runLife (evs ++ [e]) = lifeStep (runLife evs) e := by
  unfold runLife
  rw [List.foldl_append]
  rfl

/-- Claim C8 — at every point of the lifecycle at most one subscription is
active; an unmount (view closed) always leaves zero active subscriptions;
and a (re-)mount or a product-id change first releases the old subscription
and establishes exactly one new one — so no subscription is ever leaked. -/
theorem subscription_lifecycle_no_leak (evs : List LifeEvent) :
    (runLife evs).log.active.length ≤ 1 ∧
    (runLife (evs ++ [LifeEvent.unmount])).log.active = [] ∧
    (∀ pid, (runLife (evs ++ [LifeEvent.mount pid])).log.active.length = 1) ∧
    (∀ pid,
      (runLife (evs ++ [LifeEvent.setProduct pid])).log.active.length = 1) := by
  have hg := runLife_good evs
  have hcl := runCleanup_clears (runLife evs) hg
  refine ⟨?_, ?_, ?_, ?_⟩
  · have h := hg
    unfold goodSub at h
    rw [h]
    cases (runLife evs).handle <;> simp
  · rw [runLife_append_one]
    exact hcl.1
  · intro pid
    rw [runLife_append_one]
    simp [lifeStep, subscribeMovements, hcl.1]
  · intro pid
    rw [runLife_append_one]
    simp [lifeStep, subscribeMovements, hcl.1]
